import Mathlib

/-!
Shallow embedding of the session-backed authentication subsystem of the
forum backend: the session repository (src/repository/session_repository.go),
the session model (src/models/session.go), the JWT middleware
(src/middleware/auth.go and the variant middleware in src/unnamed/part_001),
the auth handlers (src/handlers/auth_handlers.go), the password hashing glue
(src/unnamed/part_004, src/unnamed/part_001, src/handlers/auth.go,
src/repository/user_repository.go).

Machine integers are modelled as Int/Nat, timestamps as Nat (Unix seconds,
the granularity at which the Go code compares them).  The SQL `sessions`
relation is a list of rows plus a health flag standing for the availability
of the underlying database connection; a query against an unhealthy
connection returns the driver error, mirroring `database/sql` failures.
The bcrypt primitive (an external library, treated as a black box by the
code) is modelled as a keyed fold producing a `$2a$cost$salt$digest`
shaped verifier; the glue code around it is translated from the source.
-/

/-- String split on a single separator character, the semantics of Go
`strings.Split(s, sep)` for a one-character separator: the empty string
yields `[[]]`, a trailing separator yields a trailing empty component. -/
def splitChars (sep : Char) : List Char → List (List Char)
  | [] => [[]]
  | c :: cs =>
    match splitChars sep cs with
    | [] => [[]]
    | w :: ws => if c = sep then [] :: w :: ws else (c :: w) :: ws

def splitOnChar (sep : Char) (s : String) : List String :=
  (splitChars sep s.data).map (fun l => String.mk l)

/-- Go `strings.TrimPrefix`: drops the prefix when present, otherwise
returns the string unchanged. -/
def trimPrefixStr (p s : String) : String :=
  if p.data.isPrefixOf s.data then String.mk (s.data.drop p.data.length) else s

/-- Decimal digits of `n`, least significant first, with structural fuel. -/
def natToDigits : Nat → Nat → List Char
  | 0, _ => []
  | fuel + 1, n =>
    if n = 0 then [] else Char.ofNat (48 + n % 10) :: natToDigits fuel (n / 10)

/-- Decimal rendering of a natural number. -/
def natToStr (n : Nat) : String :=
  if n = 0 then "0" else String.mk (natToDigits (n + 1) n).reverse

def intToStr (i : Int) : String :=
  if i < 0 then "-" ++ natToStr i.natAbs else natToStr i.natAbs

def parseNatAux : List Char → Nat → Option Nat
  | [], acc => some acc
  | c :: cs, acc =>
    if c.isDigit then parseNatAux cs (acc * 10 + (c.toNat - 48)) else none

def parseNatChars (cs : List Char) : Option Nat :=
  if cs = [] then none else parseNatAux cs 0

def parseIntChars : List Char → Option Int
  | [] => none
  | c :: cs =>
    if c = Char.ofNat 45 then (parseNatChars cs).map (fun n => -(n : Int))
    else (parseNatChars (c :: cs)).map (fun n => (n : Int))

/-- The keyed one-way primitive behind both the HMAC signature and the
bcrypt digest: a fold over the keyed input.  The code treats the real
primitives as black boxes; only determinism matters to the claims. -/
def keyedDigest (key payload : String) : Nat :=
  ((key ++ "|" ++ payload).data).foldl (fun h c => h * 131 + c.toNat + 1) 7

/-! ## bcrypt model (external primitive, black box to the code) -/

/-- Model of `bcrypt.DefaultCost` from golang.org/x/crypto/bcrypt. -/
def bcryptDefaultCost : Nat := 10

def encodeBcrypt (cost salt digest : String) : String :=
  "$2a$" ++ cost ++ "$" ++ salt ++ "$" ++ digest

/-- Parse a verifier of the shape produced by `encodeBcrypt`; any other
shape is malformed. -/
def decodeBcrypt (s : String) : Option (String × String × String) :=
  match splitOnChar (Char.ofNat 36) s with
  | [e, v, c, sa, d] => if e = "" ∧ v = "2a" then some (c, sa, d) else none
  | _ => none

/-- Model of `bcrypt.GenerateFromPassword` specialised to an explicit salt
(the library draws the salt internally; the claims quantify over it). -/
def bcryptGenerateFromPassword (password : String) (cost : Nat) (salt : String) : String :=
  encodeBcrypt (natToStr cost) salt
    (natToStr (keyedDigest (natToStr cost ++ "$" ++ salt) password))

/-- Model of `bcrypt.CompareHashAndPassword`: parse the verifier, recompute
the digest from the embedded cost and salt, compare.  A verifier that does
not parse yields an error, never an uncontrolled failure. -/
def bcryptCompareHashAndPassword (hash password : String) : Except String Unit :=
  match decodeBcrypt hash with
  | none => Except.error "crypto/bcrypt: hashedSecret too short to be a bcrypted password"
  | some (c, sa, d) =>
    if d = natToStr (keyedDigest (c ++ "$" ++ sa) password) then Except.ok ()
    else Except.error "crypto/bcrypt: hashedPassword is not the hash of the given password"

/-- The cost component recorded in a verifier string. -/
def bcryptCostOf (s : String) : Option Nat :=
  match decodeBcrypt s with
  | none => none
  | some (c, _, _) => parseNatChars c.data

/-! ## Password hashing glue, translated from the source -/

/-- `db.HashPassword` (src/unnamed/part_004): validates length and
complexity, then hashes with cost 14. -/
def db.HashPassword (password : String) (salt : String) : Except String String :=
  if password.length < 8 then
    Except.error "password must be at least 8 characters long"
  else if ¬(password.data.any Char.isUpper ∧ password.data.any Char.isLower
            ∧ password.data.any Char.isDigit) then
    Except.error "password must contain at least one uppercase letter, one lowercase letter, and one number"
  else Except.ok (bcryptGenerateFromPassword password 14 salt)

/-- `db.CheckPasswordHash` (src/unnamed/part_004): true iff the bcrypt
comparison returns no error. -/
def db.CheckPasswordHash (password hash : String) : Bool :=
  match bcryptCompareHashAndPassword hash password with
  | Except.ok _ => true
  | Except.error _ => false

/-- `middleware.HashPassword` (src/unnamed/part_001): hashes with cost 14,
no pre-validation. -/
def middleware.HashPassword (password : String) (salt : String) : String :=
  bcryptGenerateFromPassword password 14 salt

/-- `middleware.CheckPasswordHash` (src/unnamed/part_001). -/
def middleware.CheckPasswordHash (password hash : String) : Bool :=
  match bcryptCompareHashAndPassword hash password with
  | Except.ok _ => true
  | Except.error _ => false

/-- The hash computed by the `Register` handler (src/handlers/auth.go:31):
`bcrypt.GenerateFromPassword([]byte(password), bcrypt.DefaultCost)`. -/
def Register.hashedPassword (password : String) (salt : String) : String :=
  bcryptGenerateFromPassword password bcryptDefaultCost salt

/-- The hash computed by `UserRepositoryImpl.Create`
(src/repository/user_repository.go:158): cost `bcrypt.DefaultCost`. -/
def UserRepositoryImpl.createPasswordHash (password : String) (salt : String) : String :=
  bcryptGenerateFromPassword password bcryptDefaultCost salt

/-- The hash computed by `UserRepositoryImpl.UpdatePassword`
(src/repository/user_repository.go:212): cost `bcrypt.DefaultCost`. -/
def UserRepositoryImpl.updatePasswordHash (password : String) (salt : String) : String :=
  bcryptGenerateFromPassword password bcryptDefaultCost salt

/-! ## Session model and repository (src/models/session.go,
src/repository/session_repository.go) -/

/-- Session TTL: 24 hours, in seconds (src/models/session.go:21). -/
def sessionTTL : Nat := 86400

structure Session where
  ID : Int
  UserID : Int
  UUID : String
  ExpiresAt : Nat
  deriving DecidableEq, Repr

/-- `models.NewSession` (src/models/session.go:17): fresh UUID (passed in,
the source draws it from the uuid library) and expiry now + 24h. -/
def NewSession (userID : Int) (now : Nat) (uuid : String) : Session :=
  ⟨0, userID, uuid, now + sessionTTL⟩

/-- The database connection: the `sessions` relation plus a health flag.
An unhealthy connection makes every transaction and query return the
driver error, modelling infrastructure failure. -/
structure Conn where
  sessions : List Session
  healthy : Bool
  deriving DecidableEq, Repr

/-- The error returned by a query against a failed connection. -/
def dbClosedMsg : String := "sql: database is closed"

/-- `SessionRepository.CreateSession` (src/repository/session_repository.go:21):
rejects non-positive user ids before touching the store, then in one
transaction deletes every session of the user and inserts the fresh one. -/
def SessionRepository.CreateSession (conn : Conn) (userID : Int) (now : Nat)
    (uuid : String) : Except String Session × Conn :=
  if userID ≤ 0 then (Except.error "invalid user ID", conn)
  else if conn.healthy = false then (Except.error dbClosedMsg, conn)
  else
    let s := NewSession userID now uuid
    (Except.ok s,
      ⟨(conn.sessions.filter (fun r => r.UserID != userID)) ++ [s], conn.healthy⟩)

inductive SessionError where
  | emptyUUID
  | invalidOrExpired
  | store (msg : String)
  deriving DecidableEq, Repr

/-- `SessionRepository.ValidateSession` (src/repository/session_repository.go:62):
rejects the empty identifier before querying, then selects the row with
this uuid and `expires_at > now`; `sql.ErrNoRows` becomes the uniform
"invalid or expired session" error, any other query error propagates. -/
def SessionRepository.ValidateSession (conn : Conn) (uuid : String) (now : Nat) :
    Except SessionError Session :=
  if uuid = "" then Except.error SessionError.emptyUUID
  else if conn.healthy = false then Except.error (SessionError.store dbClosedMsg)
  else
    match conn.sessions.find? (fun r => r.UUID == uuid && decide (now < r.ExpiresAt)) with
    | none => Except.error SessionError.invalidOrExpired
    | some s => Except.ok s

/-- `SessionRepository.DeleteSession` (src/repository/session_repository.go:91). -/
def SessionRepository.DeleteSession (conn : Conn) (uuid : String) :
    Except String Unit × Conn :=
  if uuid = "" then (Except.error "empty session UUID", conn)
  else if conn.healthy = false then (Except.error dbClosedMsg, conn)
  else (Except.ok (), ⟨conn.sessions.filter (fun r => r.UUID != uuid), conn.healthy⟩)

/-! ## JWT model (github.com/golang-jwt/jwt/v5, as used by
src/middleware/auth.go) -/

/-- The claims the middleware puts in a token
(src/middleware/auth.go:37): user id, session uuid, expiry. -/
structure MapClaims where
  user_id : Int
  session_id : String
  exp : Nat
  deriving DecidableEq, Repr

def serializeMapClaims (c : MapClaims) : String :=
  intToStr c.user_id ++ "|" ++ c.session_id ++ "|" ++ natToStr c.exp

structure JwtToken where
  claims : MapClaims
  sig : Nat
  deriving DecidableEq, Repr

/-- `jwt.NewWithClaims(HS256, claims).SignedString(key)`: keyed signature
over the serialized claims. -/
def signToken (key : String) (c : MapClaims) : JwtToken :=
  ⟨c, keyedDigest key (serializeMapClaims c)⟩

/-- Wire form of a token: the fields joined by dots, the model of the JWT
string serialization. -/
def encodeJwt (t : JwtToken) : String :=
  intToStr t.claims.user_id ++ "." ++ t.claims.session_id ++ "." ++
    natToStr t.claims.exp ++ "." ++ natToStr t.sig

def decodeJwt (s : String) : Option JwtToken :=
  match splitOnChar (Char.ofNat 46) s with
  | [uid, sid, ex, sg] =>
    match parseIntChars uid.data, parseNatChars ex.data, parseNatChars sg.data with
    | some u, some e, some g => some ⟨⟨u, sid, e⟩, g⟩
    | _, _, _ => none
  | _ => none

inductive TokenError where
  | malformed
  | badSignature
  | expired
  deriving DecidableEq, Repr

/-- `jwt.Parse` with claim validation (jwt/v5): syntactic parse, then
signature verification against the key, then the expiry check (valid
iff now is strictly before `exp`, zero leeway, one-second granularity). -/
def jwtParse (key : String) (s : String) (now : Nat) : Except TokenError MapClaims :=
  match decodeJwt s with
  | none => Except.error TokenError.malformed
  | some t =>
    if t.sig ≠ keyedDigest key (serializeMapClaims t.claims) then
      Except.error TokenError.badSignature
    else if t.claims.exp ≤ now then Except.error TokenError.expired
    else Except.ok t.claims

/-! ## Auth middleware (src/middleware/auth.go) -/

/-- `AuthMiddleware.GenerateToken` (src/middleware/auth.go:29): creates a
session for the user, then builds claims whose `exp` is a fresh
`time.Now().Add(24h)` read.  `tSession` is the clock at the `time.Now()`
inside `models.NewSession`, `tClaims` the clock at the later `time.Now()`
in the claims literal; the source reads the clock twice. -/
def AuthMiddleware.GenerateToken (key : String) (conn : Conn) (userID : Int)
    (tSession tClaims : Nat) (uuid : String) : Except String JwtToken × Conn :=
  match SessionRepository.CreateSession conn userID tSession uuid with
  | (Except.error e, conn2) =>
    (Except.error ("failed to create session: " ++ e), conn2)
  | (Except.ok s, conn2) =>
    (Except.ok (signToken key ⟨userID, s.UUID, tClaims + sessionTTL⟩), conn2)

/-- Outcome of a middleware-wrapped request: either the inner handler runs
with the authenticated user id in the request context, or the request is
rejected with an HTTP status and message. -/
inductive GateResult where
  | next (ctxUserID : Int)
  | reject (status : Nat) (msg : String)
  deriving DecidableEq, Repr

/-- An inbound HTTP request, restricted to what the gates read: the
`Authorization` header (Go returns `""` when absent) and the cookie
named `token` when present. -/
structure HttpRequest where
  authHeader : String
  cookieToken : Option String
  deriving DecidableEq, Repr

/-- `AuthMiddleware.ProtectRoute` (src/middleware/auth.go:117): requires an
`Authorization` header, strips an optional `Bearer ` prefix, parses and
verifies the JWT, then confirms the referenced session in the store;
every failure is a 401, success passes the user id to the handler. -/
def AuthMiddleware.ProtectRoute (key : String) (conn : Conn) (now : Nat)
    (r : HttpRequest) : GateResult :=
  if r.authHeader = "" then GateResult.reject 401 "Missing authorization token"
  else
    match jwtParse key (trimPrefixStr "Bearer " r.authHeader) now with
    | Except.error _ => GateResult.reject 401 "Invalid token"
    | Except.ok claims =>
      match SessionRepository.ValidateSession conn claims.session_id now with
      | Except.error _ => GateResult.reject 401 "Invalid session"
      | Except.ok _ => GateResult.next claims.user_id

/-! ## The variant middleware of src/unnamed/part_001 -/

/-- Claims of the variant middleware (src/unnamed/part_001:162): user id,
username and registered claims; no session reference at all. -/
structure Claims2 where
  userID : Int
  username : String
  expiresAt : Nat
  issuedAt : Nat
  issuer : String
  deriving DecidableEq, Repr

def serializeClaims2 (c : Claims2) : String :=
  intToStr c.userID ++ "|" ++ c.username ++ "|" ++ natToStr c.expiresAt ++ "|" ++
    natToStr c.issuedAt ++ "|" ++ c.issuer

structure JwtToken2 where
  claims : Claims2
  sig : Nat
  deriving DecidableEq, Repr

def signToken2 (key : String) (c : Claims2) : JwtToken2 :=
  ⟨c, keyedDigest key (serializeClaims2 c)⟩

/-- `generateToken` (src/unnamed/part_001:253). -/
def generateToken2 (key : String) (expiration : Nat) (userID : Int)
    (username : String) (now : Nat) : JwtToken2 :=
  signToken2 key ⟨userID, username, now + expiration, now, "forum"⟩

def encodeJwt2 (t : JwtToken2) : String :=
  intToStr t.claims.userID ++ "." ++ t.claims.username ++ "." ++
    natToStr t.claims.expiresAt ++ "." ++ natToStr t.claims.issuedAt ++ "." ++
    t.claims.issuer ++ "." ++ natToStr t.sig

def decodeJwt2 (s : String) : Option JwtToken2 :=
  match splitOnChar (Char.ofNat 46) s with
  | [uid, un, ex, ia, iss, sg] =>
    match parseIntChars uid.data, parseNatChars ex.data, parseNatChars ia.data,
        parseNatChars sg.data with
    | some u, some e, some i, some g => some ⟨⟨u, un, e, i, iss⟩, g⟩
    | _, _, _, _ => none
  | _ => none

/-- `validateToken` (src/unnamed/part_001:269): parse, verify signature,
validate expiry. -/
def validateToken2 (key : String) (s : String) (now : Nat) :
    Except TokenError Claims2 :=
  match decodeJwt2 s with
  | none => Except.error TokenError.malformed
  | some t =>
    if t.sig ≠ keyedDigest key (serializeClaims2 t.claims) then
      Except.error TokenError.badSignature
    else if t.claims.expiresAt ≤ now then Except.error TokenError.expired
    else Except.ok t.claims

/-- `AuthMiddleware.extractToken` (src/unnamed/part_001:213): if the
`Authorization` header splits on a space into exactly two words, the second
word is the token; otherwise fall back to the cookie named `token`, whose
absence is an error (`http.ErrNoCookie`). -/
def AuthMiddleware.extractToken (r : HttpRequest) : Except String String :=
  match splitOnChar (Char.ofNat 32) r.authHeader with
  | [_, t] => Except.ok t
  | _ =>
    match r.cookieToken with
    | none => Except.error "http: named cookie not present"
    | some v => Except.ok v

/-- The variant `ProtectRoute` (src/unnamed/part_001:188): an extraction
error is answered with 500, an empty extracted token with 401, an invalid
token with 401; otherwise the claims enter the request context.  The
session store is never consulted. -/
def AuthMiddleware.ProtectRoute2 (key : String) (r : HttpRequest) (now : Nat) :
    GateResult :=
  match AuthMiddleware.extractToken r with
  | Except.error _ => GateResult.reject 500 "Failed to extract token"
  | Except.ok ts =>
    if ts = "" then GateResult.reject 401 "Unauthorized"
    else
      match validateToken2 key ts now with
      | Except.error _ => GateResult.reject 401 "Invalid token"
      | Except.ok c => GateResult.next c.userID

/-! ## Auth handlers (src/handlers/auth_handlers.go) -/

/-- `AuthHandler.Logout` (src/handlers/auth_handlers.go:234): POST only,
requires an authenticated context, and performs no session-store
operation at all — the connection comes back unchanged. -/
def AuthHandler.Logout (method : String) (ctxUserID : Option Int) (conn : Conn) :
    Nat × Conn :=
  if method ≠ "POST" then (405, conn)
  else
    match ctxUserID with
    | none => (401, conn)
    | some _ => (200, conn)

/-! ## User repositories (src/repository/user_repository.go, two variants) -/

/-- `db.User` (src/unnamed/part_004): the stored verifier lives in
`PasswordHash`. -/
structure DbUser where
  ID : Int
  Username : String
  Email : String
  PasswordHash : String
  CreatedAt : Nat
  deriving DecidableEq, Repr

/-- `UserRepository.FindByEmail` (src/repository/user_repository.go:54). -/
def UserRepository.FindByEmail (users : List DbUser) (email : String) :
    Except String DbUser :=
  match users.find? (fun u => u.Email == email) with
  | none => Except.error "user not found"
  | some u => Except.ok u

/-- `UserRepository.Authenticate` (src/repository/user_repository.go:78):
find by email, check the password, and return the row as loaded — the
`PasswordHash` field is not cleared. -/
def UserRepository.Authenticate (users : List DbUser) (email password : String) :
    Except String DbUser :=
  match UserRepository.FindByEmail users email with
  | Except.error _ => Except.error "invalid email or password"
  | Except.ok u =>
    if db.CheckPasswordHash password u.PasswordHash then Except.ok u
    else Except.error "invalid email or password"

/-- `models.User` as used by `UserRepositoryImpl`
(src/repository/user_repository.go:132): the verifier lives in `Password`. -/
structure ModelsUser where
  ID : Int
  Username : String
  Email : String
  Password : String
  CreatedAt : Nat
  deriving DecidableEq, Repr

/-- `UserRepositoryImpl.FindByEmail` (src/repository/user_repository.go:182). -/
def UserRepositoryImpl.FindByEmail (users : List ModelsUser) (email : String) :
    Except String ModelsUser :=
  match users.find? (fun u => u.Email == email) with
  | none => Except.error "user not found"
  | some u => Except.ok u

/-- `UserRepositoryImpl.Authenticate` (src/repository/user_repository.go:223):
find by email, compare with bcrypt, then clear the `Password` field before
returning the user. -/
def UserRepositoryImpl.Authenticate (users : List ModelsUser)
    (email password : String) : Except String ModelsUser :=
  match UserRepositoryImpl.FindByEmail users email with
  | Except.error _ => Except.error "invalid credentials"
  | Except.ok u =>
    match bcryptCompareHashAndPassword u.Password password with
    | Except.error _ => Except.error "invalid credentials"
    | Except.ok _ => Except.ok ⟨u.ID, u.Username, u.Email, "", u.CreatedAt⟩

/-! ## Helper lemmas about the string model -/

theorem splitChars_ne_nil (sep : Char) (l : List Char) : splitChars sep l ≠ [] := by
  induction l with
  | nil => simp [splitChars]
  | cons c cs ih =>
    simp only [splitChars]
    rcases h : splitChars sep cs with _ | ⟨w, ws⟩
    · exact absurd h ih
    · by_cases hc : c = sep <;> simp [hc]

theorem splitChars_sepFree (sep : Char) (l : List Char)
    (h : ∀ c ∈ l, c ≠ sep) : splitChars sep l = [l] := by
  induction l with
  | nil => rfl
  | cons c cs ih =>
    have hc : c ≠ sep := h c (List.mem_cons_self c cs)
    have hcs : splitChars sep cs = [cs] := ih (fun x hx => h x (List.mem_cons_of_mem c hx))
    simp [splitChars, hcs, hc]

theorem splitChars_append (sep : Char) (l rest : List Char)
    (h : ∀ c ∈ l, c ≠ sep) :
    splitChars sep (l ++ sep :: rest) = l :: splitChars sep rest := by
  induction l with
  | nil =>
    simp only [List.nil_append, splitChars]
    rcases hr : splitChars sep rest with _ | ⟨w, ws⟩
    · exact absurd hr (splitChars_ne_nil sep rest)
    · simp
  | cons c cs ih =>
    have hc : c ≠ sep := h c (List.mem_cons_self c cs)
    have hcs := ih (fun x hx => h x (List.mem_cons_of_mem c hx))
    simp only [List.cons_append, splitChars, List.append_eq, hcs, if_neg hc]

theorem digitChar_isDigit (k : Nat) (h : k < 10) :
    (Char.ofNat (48 + k)).isDigit = true := by
  interval_cases k <;> decide

theorem natToDigits_digits (fuel n : Nat) :
    ∀ c ∈ natToDigits fuel n, c.isDigit = true := by
  induction fuel generalizing n with
  | zero => intro c hc; simp [natToDigits] at hc
  | succ fuel ih =>
    intro c hc
    simp only [natToDigits] at hc
    by_cases hn : n = 0
    · simp [hn] at hc
    · simp only [if_neg hn, List.mem_cons] at hc
      rcases hc with hc | hc
      · subst hc; exact digitChar_isDigit _ (Nat.mod_lt _ (by decide))
      · exact ih _ c hc

theorem natToStr_digits (n : Nat) : ∀ c ∈ (natToStr n).data, c.isDigit = true := by
  intro c hc
  simp only [natToStr] at hc
  by_cases hn : n = 0
  · simp [hn] at hc; subst hc; decide
  · simp only [if_neg hn, String.mk] at hc
    exact natToDigits_digits _ _ c (List.mem_reverse.mp hc)

theorem digit_ne_dollar (c : Char) (h : c.isDigit = true) : c ≠ Char.ofNat 36 := by
  intro e; subst e; simp [Char.isDigit] at h

theorem data_append (a b : String) : (a ++ b).data = a.data ++ b.data := rfl

theorem mk_data (s : String) : String.mk s.data = s := rfl

/-- Round trip of the bcrypt verifier encoding: for a salt free of the
separator, decoding recovers the three components. -/
theorem decodeBcrypt_encode (cost digest : Nat) (salt : String)
    (hs : ∀ c ∈ salt.data, c ≠ Char.ofNat 36) :
    decodeBcrypt (encodeBcrypt (natToStr cost) salt (natToStr digest)) =
      some (natToStr cost, salt, natToStr digest) := by
  have hcost : ∀ c ∈ (natToStr cost).data, c ≠ Char.ofNat 36 :=
    fun c hc => digit_ne_dollar c (natToStr_digits cost c hc)
  have hdig : ∀ c ∈ (natToStr digest).data, c ≠ Char.ofNat 36 :=
    fun c hc => digit_ne_dollar c (natToStr_digits digest c hc)
  have hdata : (encodeBcrypt (natToStr cost) salt (natToStr digest)).data =
      ([] ++ Char.ofNat 36 :: (['2', 'a'] ++ Char.ofNat 36 ::
        ((natToStr cost).data ++ Char.ofNat 36 ::
          (salt.data ++ Char.ofNat 36 :: (natToStr digest).data)))) := by
    simp [encodeBcrypt, data_append]
  simp only [decodeBcrypt, splitOnChar, hdata]
  rw [splitChars_append _ _ _ (by simp),
      splitChars_append _ _ _ (by decide),
      splitChars_append _ _ _ hcost,
      splitChars_append _ _ _ hs,
      splitChars_sepFree _ _ hdig]
  simp [mk_data]

instance {ε α : Type} [DecidableEq ε] [DecidableEq α] : DecidableEq (Except ε α) := fun x y =>
  match x, y with
  | Except.ok a, Except.ok b =>
    if h : a = b then Decidable.isTrue (by rw [h])
    else Decidable.isFalse (by intro he; cases he; exact h rfl)
  | Except.error a, Except.error b =>
    if h : a = b then Decidable.isTrue (by rw [h])
    else Decidable.isFalse (by intro he; cases he; exact h rfl)
  | Except.ok _, Except.error _ => Decidable.isFalse (by intro he; cases he)
  | Except.error _, Except.ok _ => Decidable.isFalse (by intro he; cases he)

/-! ## Claim theorems -/

/-- C7: for every password accepted by the hash function, verifying the
password against its own hash succeeds (for both the db and the middleware
hashers), and a verifier string that does not parse makes verification
return false rather than fail uncontrolled. -/
theorem hash_verify_roundtrip_fail_closed :
    (∀ password salt h, (∀ c ∈ salt.data, c ≠ Char.ofNat 36) →
      db.HashPassword password salt = Except.ok h →
      db.CheckPasswordHash password h = true) ∧
    (∀ password salt, (∀ c ∈ salt.data, c ≠ Char.ofNat 36) →
      middleware.CheckPasswordHash password (middleware.HashPassword password salt) = true) ∧
    (∀ password s, decodeBcrypt s = none →
      db.CheckPasswordHash password s = false) := by
  refine ⟨?_, ?_, ?_⟩
  · intro password salt h hs hok
    simp only [db.HashPassword] at hok
    split at hok
    · exact absurd hok (by simp)
    · split at hok
      · exact absurd hok (by simp)
      · have hh : h = bcryptGenerateFromPassword password 14 salt := by
          cases hok; rfl
        subst hh
        simp only [db.CheckPasswordHash, bcryptCompareHashAndPassword,
          bcryptGenerateFromPassword]
        rw [decodeBcrypt_encode _ _ _ hs]
        simp
  · intro password salt hs
    simp only [middleware.CheckPasswordHash, middleware.HashPassword,
      bcryptCompareHashAndPassword, bcryptGenerateFromPassword]
    rw [decodeBcrypt_encode _ _ _ hs]
    simp
  · intro password s hmal
    simp [db.CheckPasswordHash, bcryptCompareHashAndPassword, hmal]

theorem hash_verify_roundtrip_fail_closed_witness :
    db.HashPassword "Str0ngPass" "somesalt" =
      Except.ok (bcryptGenerateFromPassword "Str0ngPass" 14 "somesalt") ∧
    db.CheckPasswordHash "Str0ngPass"
      (bcryptGenerateFromPassword "Str0ngPass" 14 "somesalt") = true ∧
    db.CheckPasswordHash "Str0ngPass" "not-a-verifier" = false :=
  ⟨by decide,
   hash_verify_roundtrip_fail_closed.1 "Str0ngPass" "somesalt" _ (by decide) (by decide),
   hash_verify_roundtrip_fail_closed.2.2 "Str0ngPass" "not-a-verifier" (by decide)⟩

/-- C8 (amended): the dedicated hashing helpers pass work factor 14, which
meets the `≥ 12` floor, but the `Register` handler,
`UserRepositoryImpl.Create` and `UserRepositoryImpl.UpdatePassword` pass
`bcrypt.DefaultCost` = 10, below the floor. -/
theorem password_hash_cost_call_sites :
    (∀ password salt, (∀ c ∈ salt.data, c ≠ Char.ofNat 36) →
      bcryptCostOf (middleware.HashPassword password salt) = some 14) ∧
    (∀ password salt h, (∀ c ∈ salt.data, c ≠ Char.ofNat 36) →
      db.HashPassword password salt = Except.ok h → bcryptCostOf h = some 14) ∧
    (∀ password salt, (∀ c ∈ salt.data, c ≠ Char.ofNat 36) →
      bcryptCostOf (Register.hashedPassword password salt) = some bcryptDefaultCost) ∧
    (∀ password salt, (∀ c ∈ salt.data, c ≠ Char.ofNat 36) →
      bcryptCostOf (UserRepositoryImpl.createPasswordHash password salt) = some bcryptDefaultCost) ∧
    12 ≤ 14 ∧ bcryptDefaultCost < 12 := by
  have hmid : ∀ password salt, (∀ c ∈ salt.data, c ≠ Char.ofNat 36) →
      ∀ cost : Nat, parseNatChars (natToStr cost).data = some cost →
      bcryptCostOf (bcryptGenerateFromPassword password cost salt) = some cost := by
    intro password salt hs cost hc
    simp only [bcryptCostOf, bcryptGenerateFromPassword]
    rw [decodeBcrypt_encode _ _ _ hs]
    exact hc
  refine ⟨?_, ?_, ?_, ?_, by decide, by decide⟩
  · intro password salt hs
    exact hmid password salt hs 14 (by decide)
  · intro password salt h hs hok
    simp only [db.HashPassword] at hok
    split at hok
    · exact absurd hok (by simp)
    · split at hok
      · exact absurd hok (by simp)
      · have hh : h = bcryptGenerateFromPassword password 14 salt := by cases hok; rfl
        subst hh
        exact hmid password salt hs 14 (by decide)
  · intro password salt hs
    exact hmid password salt hs bcryptDefaultCost (by decide)
  · intro password salt hs
    exact hmid password salt hs bcryptDefaultCost (by decide)

theorem password_hash_cost_call_sites_witness :
    bcryptCostOf (middleware.HashPassword "Str0ngPass" "somesalt") = some 14 ∧
    bcryptCostOf (Register.hashedPassword "Str0ngPass" "somesalt") = some bcryptDefaultCost :=
  ⟨password_hash_cost_call_sites.1 "Str0ngPass" "somesalt" (by decide),
   password_hash_cost_call_sites.2.2.1 "Str0ngPass" "somesalt" (by decide)⟩

/-- C8 counterexample: the `Register` handler call site
(src/handlers/auth.go:31) hashes with cost 10, not at least 12. -/
theorem register_call_site_cost_below_floor :
    bcryptCostOf (Register.hashedPassword "Str0ng!Pass" "forumsalt") = some 10 ∧
    ¬ (12 ≤ 10) := ⟨by decide, by decide⟩

/-- C9: `CreateSession` rejects a non-positive user id before touching the
store (the connection state is returned unchanged, for any connection),
and `ValidateSession` rejects the empty identifier before querying (the
result is the input-validation error for any connection, healthy or not). -/
theorem create_validate_input_guards :
    (∀ conn userID now uuid, userID ≤ 0 →
      SessionRepository.CreateSession conn userID now uuid =
        (Except.error "invalid user ID", conn)) ∧
    (∀ conn now, SessionRepository.ValidateSession conn "" now =
      Except.error SessionError.emptyUUID) := by
  constructor
  · intro conn userID now uuid hle
    simp [SessionRepository.CreateSession, hle]
  · intro conn now
    simp [SessionRepository.ValidateSession]

theorem create_validate_input_guards_witness :
    SessionRepository.CreateSession ⟨[], false⟩ 0 5 "u" =
      (Except.error "invalid user ID", (⟨[], false⟩ : Conn)) ∧
    SessionRepository.ValidateSession ⟨[⟨0, 1, "x", 99⟩], false⟩ "" 5 =
      Except.error SessionError.emptyUUID :=
  ⟨create_validate_input_guards.1 ⟨[], false⟩ 0 5 "u" (by decide),
   create_validate_input_guards.2 ⟨[⟨0, 1, "x", 99⟩], false⟩ 5⟩

/-- C2: two sequential `CreateSession` calls for the same user leave
exactly one session row for that user (the second atomically replaces the
first), and the identifier returned by the first call no longer validates,
at any later instant.  The freshness hypotheses say the generated
identifiers are new and distinct, which the high-entropy generator
provides. -/
theorem createSession_twice_replaces (conn : Conn) (u : Int) (t1 t2 tv : Nat)
    (uuid1 uuid2 : String)
    (hh : conn.healthy = true) (hu : 0 < u)
    (hne : uuid1 ≠ uuid2) (hnn : uuid1 ≠ "")
    (hfresh : ∀ s ∈ conn.sessions, s.UUID ≠ uuid1) :
    (((SessionRepository.CreateSession
        (SessionRepository.CreateSession conn u t1 uuid1).2 u t2 uuid2).2.sessions.filter
          (fun s => s.UserID == u)).length = 1) ∧
    SessionRepository.ValidateSession
        (SessionRepository.CreateSession
          (SessionRepository.CreateSession conn u t1 uuid1).2 u t2 uuid2).2 uuid1 tv =
      Except.error SessionError.invalidOrExpired := by
  have hule : ¬ (u ≤ 0) := by omega
  have h1 : (SessionRepository.CreateSession conn u t1 uuid1).2 =
      ⟨(conn.sessions.filter (fun r => r.UserID != u)) ++ [NewSession u t1 uuid1],
        conn.healthy⟩ := by
    simp [SessionRepository.CreateSession, hule, hh]
  have h2 : (SessionRepository.CreateSession
      (SessionRepository.CreateSession conn u t1 uuid1).2 u t2 uuid2).2 =
      ⟨(conn.sessions.filter (fun r => r.UserID != u)) ++ [NewSession u t2 uuid2],
        conn.healthy⟩ := by
    rw [h1]
    simp [SessionRepository.CreateSession, hule, hh, NewSession,
      List.filter_append, List.filter_filter]
  rw [h2]
  constructor
  · simp only [List.filter_append, List.filter_filter]
    have hz : conn.sessions.filter (fun a => (a.UserID == u) && (a.UserID != u)) = [] := by
      apply List.filter_eq_nil_iff.mpr
      intro a _
      by_cases hau : a.UserID = u <;> simp [hau]
    rw [hz]
    simp [NewSession]
  · simp only [SessionRepository.ValidateSession, hnn, hh]
    have hfind : ((conn.sessions.filter (fun r => r.UserID != u)) ++
        [NewSession u t2 uuid2]).find?
          (fun r => r.UUID == uuid1 && decide (tv < r.ExpiresAt)) = none := by
      apply List.find?_eq_none.mpr
      intro a ha
      rcases List.mem_append.mp ha with ha | ha
      · have := hfresh a (List.mem_of_mem_filter ha)
        simp [this]
      · simp only [List.mem_singleton] at ha
        subst ha
        simp [NewSession, Ne.symm hne]
    rw [hfind]
    simp

theorem createSession_twice_replaces_witness :
    (((SessionRepository.CreateSession
        (SessionRepository.CreateSession ⟨[], true⟩ 1 10 "uuid-a").2 1 20 "uuid-b").2.sessions.filter
          (fun s => s.UserID == 1)).length = 1) ∧
    SessionRepository.ValidateSession
        (SessionRepository.CreateSession
          (SessionRepository.CreateSession ⟨[], true⟩ 1 10 "uuid-a").2 1 20 "uuid-b").2 "uuid-a" 21 =
      Except.error SessionError.invalidOrExpired :=
  createSession_twice_replaces ⟨[], true⟩ 1 10 20 21 "uuid-a" "uuid-b"
    rfl (by decide) (by decide) (by decide) (by intro s hs; simp at hs)

/-- C4: `ValidateSession` answers the one uniform error whenever no row
with the requested identifier is live — whether the identifier never
existed, its row has expired, or it was superseded by a replacement — and
any session it does return has expiry strictly after the current time. -/
theorem validateSession_uniform_notfound_and_strict_expiry (conn : Conn)
    (uuid : String) (now : Nat) :
    (conn.healthy = true → uuid ≠ "" →
      (∀ s ∈ conn.sessions, s.UUID = uuid → s.ExpiresAt ≤ now) →
      SessionRepository.ValidateSession conn uuid now =
        Except.error SessionError.invalidOrExpired) ∧
    (∀ s, SessionRepository.ValidateSession conn uuid now = Except.ok s →
      now < s.ExpiresAt) := by
  constructor
  · intro hh hnn hdead
    simp only [SessionRepository.ValidateSession, hnn, hh]
    have hfind : conn.sessions.find?
        (fun r => r.UUID == uuid && decide (now < r.ExpiresAt)) = none := by
      apply List.find?_eq_none.mpr
      intro a ha
      by_cases hau : a.UUID = uuid
      · have := hdead a ha hau
        simp [hau, Nat.not_lt.mpr this]
      · simp [hau]
    rw [hfind]
    simp
  · intro s hok
    simp only [SessionRepository.ValidateSession] at hok
    split at hok
    · exact absurd hok (by simp)
    · split at hok
      · exact absurd hok (by simp)
      · rcases hfind : conn.sessions.find?
            (fun r => r.UUID == uuid && decide (now < r.ExpiresAt)) with _ | t
        · rw [hfind] at hok; exact absurd hok (by simp)
        · rw [hfind] at hok
          have hs : t = s := by cases hok; rfl
          subst hs
          have hp := List.find?_some hfind
          simp only [Bool.and_eq_true, decide_eq_true_eq] at hp
          exact hp.2

theorem validateSession_uniform_notfound_witness :
    (SessionRepository.ValidateSession ⟨[⟨0, 1, "live", 100⟩], true⟩ "never" 50 =
      Except.error SessionError.invalidOrExpired) ∧
    (SessionRepository.ValidateSession ⟨[⟨0, 1, "old", 40⟩], true⟩ "old" 50 =
      Except.error SessionError.invalidOrExpired) ∧
    (SessionRepository.ValidateSession
        (SessionRepository.CreateSession ⟨[⟨0, 1, "old", 100⟩], true⟩ 1 50 "new").2 "old" 50 =
      Except.error SessionError.invalidOrExpired) ∧
    (50 : Nat) < (Session.mk 0 1 "live" 100).ExpiresAt :=
  ⟨(validateSession_uniform_notfound_and_strict_expiry _ "never" 50).1 rfl (by decide) (by decide),
   (validateSession_uniform_notfound_and_strict_expiry _ "old" 50).1 rfl (by decide) (by decide),
   (validateSession_uniform_notfound_and_strict_expiry _ "old" 50).1 (by decide) (by decide) (by decide),
   (validateSession_uniform_notfound_and_strict_expiry ⟨[⟨0, 1, "live", 100⟩], true⟩ "live" 50).2
     ⟨0, 1, "live", 100⟩ (by decide)⟩

/-- C3 (amended): the repository does propagate an infrastructure failure
as a distinct store error — not the uniform invalid-or-expired error — but
the protected-route gate collapses every session-validation failure,
store failures included, into the uniform 401; the gate never answers
with a 5xx status. -/
theorem store_failure_distinct_in_repo_collapsed_at_gate :
    (∀ conn uuid now, conn.healthy = false → uuid ≠ "" →
      SessionRepository.ValidateSession conn uuid now =
        Except.error (SessionError.store dbClosedMsg)) ∧
    (∀ key conn now r st msg,
      AuthMiddleware.ProtectRoute key conn now r = GateResult.reject st msg →
      st = 401) := by
  constructor
  · intro conn uuid now hbad hnn
    simp [SessionRepository.ValidateSession, hnn, hbad]
  · intro key conn now r st msg h
    simp only [AuthMiddleware.ProtectRoute] at h
    split at h
    · cases h; rfl
    · split at h
      · cases h; rfl
      · split at h
        · cases h; rfl
        · exact absurd h (by simp)

theorem store_failure_distinct_in_repo_witness :
    SessionRepository.ValidateSession ⟨[⟨0, 1, "sess-1", 86500⟩], false⟩ "sess-1" 200 =
      Except.error (SessionError.store dbClosedMsg) ∧
    (401 : Nat) = 401 :=
  ⟨(store_failure_distinct_in_repo_collapsed_at_gate).1
      ⟨[⟨0, 1, "sess-1", 86500⟩], false⟩ "sess-1" 200 rfl (by decide),
   (store_failure_distinct_in_repo_collapsed_at_gate).2 "k"
      ⟨[⟨0, 1, "sess-1", 86500⟩], false⟩ 200
      ⟨"Bearer " ++ encodeJwt (signToken "k" ⟨1, "sess-1", 86500⟩), none⟩ 401
      "Invalid session" (by decide)⟩

/-- C3 counterexample: with the very same store failure the repository
reports as a store error, the HTTP boundary answers 401, not a 5xx. -/
theorem store_failure_surfaces_as_401 :
    SessionRepository.ValidateSession ⟨[⟨0, 1, "sess-1", 86500⟩], false⟩ "sess-1" 200 =
      Except.error (SessionError.store dbClosedMsg) ∧
    AuthMiddleware.ProtectRoute "k" ⟨[⟨0, 1, "sess-1", 86500⟩], false⟩ 200
        ⟨"Bearer " ++ encodeJwt (signToken "k" ⟨1, "sess-1", 86500⟩), none⟩ =
      GateResult.reject 401 "Invalid session" ∧
    (401 : Nat) ≠ 500 := by
  refine ⟨by decide, by decide, by decide⟩

/-- C5 (amended): the expiry claim of an issued token is the clock read at
claims creation plus 24h, while the backing session expires at the clock
read inside session creation plus 24h; with a monotone clock the token
expiry is greater than or equal to the session expiry — equal exactly when
both reads fall in the same second — so the token can nominally outlive
its backing session by the drift between the two reads. -/
theorem generateToken_expiry_vs_session_expiry (key : String) (conn : Conn)
    (u : Int) (t1 t2 : Nat) (uuid : String)
    (hh : conn.healthy = true) (hu : 0 < u) (hm : t1 ≤ t2) :
    (AuthMiddleware.GenerateToken key conn u t1 t2 uuid).1 =
      Except.ok (signToken key ⟨u, uuid, t2 + sessionTTL⟩) ∧
    (AuthMiddleware.GenerateToken key conn u t1 t2 uuid).2.sessions =
      conn.sessions.filter (fun s => s.UserID != u) ++ [NewSession u t1 uuid] ∧
    (NewSession u t1 uuid).ExpiresAt ≤ t2 + sessionTTL := by
  have hule : ¬ (u ≤ 0) := by omega
  refine ⟨?_, ?_, ?_⟩
  · simp [AuthMiddleware.GenerateToken, SessionRepository.CreateSession, hule, hh, NewSession]
  · simp [AuthMiddleware.GenerateToken, SessionRepository.CreateSession, hule, hh]
  · simp only [NewSession]
    omega

theorem generateToken_expiry_vs_session_expiry_witness :
    (AuthMiddleware.GenerateToken "k" ⟨[], true⟩ 1 100 100 "sess-1").1 =
      Except.ok (signToken "k" ⟨1, "sess-1", 100 + sessionTTL⟩) ∧
    (AuthMiddleware.GenerateToken "k" ⟨[], true⟩ 1 100 100 "sess-1").2.sessions =
      ([] : List Session).filter (fun s => s.UserID != 1) ++ [NewSession 1 100 "sess-1"] ∧
    (NewSession 1 100 "sess-1").ExpiresAt ≤ 100 + sessionTTL :=
  generateToken_expiry_vs_session_expiry "k" ⟨[], true⟩ 1 100 100 "sess-1"
    rfl (by decide) (by decide)

/-- C5 counterexample: when one second elapses between session creation and
claims creation, the token issued at clock 1 for the session created at
clock 0 carries expiry 86401 while the backing session expires at 86400 —
the embedded expiry does not equal the session expiry. -/
theorem token_expiry_differs_from_session_expiry :
    (AuthMiddleware.GenerateToken "k" ⟨[], true⟩ 1 0 1 "s").1 =
      Except.ok (signToken "k" ⟨1, "s", 86401⟩) ∧
    (AuthMiddleware.GenerateToken "k" ⟨[], true⟩ 1 0 1 "s").2.sessions =
      [⟨0, 1, "s", 86400⟩] ∧
    (signToken "k" ⟨1, "s", 86401⟩).claims.exp ≠
      (Session.mk 0 1 "s" 86400).ExpiresAt := by
  refine ⟨by decide, by decide, by decide⟩

/-- C10 (amended): `UserRepositoryImpl.Authenticate` clears the `Password`
field of the user it returns, but the `db.User` based
`UserRepository.Authenticate` returns the loaded row with its stored
`PasswordHash` untouched. -/
theorem authenticate_impl_clears_password (users : List ModelsUser)
    (email password : String) (u : ModelsUser)
    (h : UserRepositoryImpl.Authenticate users email password = Except.ok u) :
    u.Password = "" := by
  simp only [UserRepositoryImpl.Authenticate] at h
  split at h
  · exact absurd h (by simp)
  · split at h
    · exact absurd h (by simp)
    · cases h; rfl

theorem authenticate_impl_clears_password_witness :
    (UserRepositoryImpl.Authenticate
        [⟨1, "alice", "alice@example.com",
          bcryptGenerateFromPassword "Str0ngPass" 10 "ss", 0⟩]
        "alice@example.com" "Str0ngPass" =
      Except.ok ⟨1, "alice", "alice@example.com", "", 0⟩) ∧
    (⟨1, "alice", "alice@example.com", "", 0⟩ : ModelsUser).Password = "" :=
  ⟨by decide,
   authenticate_impl_clears_password
      [⟨1, "alice", "alice@example.com",
        bcryptGenerateFromPassword "Str0ngPass" 10 "ss", 0⟩]
      "alice@example.com" "Str0ngPass" ⟨1, "alice", "alice@example.com", "", 0⟩
      (by decide)⟩

/-- C10 counterexample: the `db.User` based `Authenticate` succeeds and
returns the user with the stored verifier still present in
`PasswordHash`, exposing it to the login path. -/
theorem authenticate_dbuser_exposes_hash :
    UserRepository.Authenticate
        [⟨1, "alice", "alice@example.com",
          bcryptGenerateFromPassword "Str0ngPass" 14 "ss", 0⟩]
        "alice@example.com" "Str0ngPass" =
      Except.ok ⟨1, "alice", "alice@example.com",
        bcryptGenerateFromPassword "Str0ngPass" 14 "ss", 0⟩ ∧
    (bcryptGenerateFromPassword "Str0ngPass" 14 "ss" ≠ "") := by
  refine ⟨by decide, by decide⟩

/-- C6 (amended): credential extraction takes the second word of a
two-word `Authorization` header and otherwise falls back to the cookie
named `token`; but a protected-route request bearing neither header nor
cookie is rejected with 500 (the missing-cookie error is treated as an
internal extraction failure), not 401 — 401 is the answer for an empty
extracted token. -/
theorem extract_header_then_cookie_missing_both_500 :
    (∀ hdr t c, splitOnChar (Char.ofNat 32) hdr = ["Bearer", t] →
      AuthMiddleware.extractToken ⟨hdr, c⟩ = Except.ok t) ∧
    (∀ v, AuthMiddleware.extractToken ⟨"", some v⟩ = Except.ok v) ∧
    (∀ key now, AuthMiddleware.ProtectRoute2 key ⟨"", none⟩ now =
      GateResult.reject 500 "Failed to extract token") ∧
    (∀ key now, AuthMiddleware.ProtectRoute2 key ⟨"", some ""⟩ now =
      GateResult.reject 401 "Unauthorized") := by
  refine ⟨?_, ?_, ?_, ?_⟩
  · intro hdr t c hsplit
    simp [AuthMiddleware.extractToken, hsplit]
  · intro v
    rfl
  · intro key now
    rfl
  · intro key now
    rfl

theorem extract_header_then_cookie_witness :
    AuthMiddleware.extractToken ⟨"Bearer tok123", some "cookie-tok"⟩ =
      Except.ok "tok123" :=
  extract_header_then_cookie_missing_both_500.1 "Bearer tok123" "tok123"
    (some "cookie-tok") (by decide)

/-- C6 counterexample: a protected-route request with no `Authorization`
header and no `token` cookie is answered with 500, not the claimed 401. -/
theorem missing_both_credentials_rejected_500_not_401 :
    AuthMiddleware.ProtectRoute2 "secret" ⟨"", none⟩ 0 =
      GateResult.reject 500 "Failed to extract token" ∧
    (500 : Nat) ≠ 401 := ⟨rfl, by decide⟩

/-- C1 (amended): the session-confirming gate of src/middleware/auth.go
does reject, with the uniform 401, any token that passes signature and
expiry verification but whose referenced session is absent from the store;
however `AuthHandler.Logout` performs no session invalidation — the store
comes back unchanged from logout — so a logout does not make the session
absent, and retrying the token after login and logout is not rejected. -/
theorem absent_session_401_but_logout_keeps_session (key : String)
    (conn : Conn) (now : Nat) (r : HttpRequest) (c : MapClaims) (e : SessionError)
    (hnn : r.authHeader ≠ "")
    (hparse : jwtParse key (trimPrefixStr "Bearer " r.authHeader) now = Except.ok c)
    (hsess : SessionRepository.ValidateSession conn c.session_id now =
      Except.error e) :
    AuthMiddleware.ProtectRoute key conn now r =
      GateResult.reject 401 "Invalid session" ∧
    (∀ method ctx conn2, (AuthHandler.Logout method ctx conn2).2 = conn2) := by
  constructor
  · simp [AuthMiddleware.ProtectRoute, hnn, hparse, hsess]
  · intro method ctx conn2
    simp only [AuthHandler.Logout]
    split
    · rfl
    · rcases ctx with _ | v <;> rfl

theorem absent_session_401_witness :
    AuthMiddleware.ProtectRoute "k" ⟨[], true⟩ 5
        ⟨"Bearer " ++ encodeJwt (signToken "k" ⟨7, "gone", 1000⟩), none⟩ =
      GateResult.reject 401 "Invalid session" ∧
    (∀ method ctx conn2, (AuthHandler.Logout method ctx conn2).2 = conn2) :=
  absent_session_401_but_logout_keeps_session "k" ⟨[], true⟩ 5
    ⟨"Bearer " ++ encodeJwt (signToken "k" ⟨7, "gone", 1000⟩), none⟩
    ⟨7, "gone", 1000⟩ SessionError.invalidOrExpired
    (by decide) (by decide) (by decide)

/-- C1 counterexample: login (which mints the token and its session),
then logout through `AuthHandler.Logout`, then retry of the very same
token: the gate answers with the authenticated pass-through, not 401,
because logout left the session row in the store. -/
theorem token_after_logout_still_accepted :
    (AuthMiddleware.GenerateToken "k" ⟨[], true⟩ 1 100 100 "sess-1").1 =
      Except.ok (signToken "k" ⟨1, "sess-1", 86500⟩) ∧
    AuthHandler.Logout "POST" (some 1)
        (AuthMiddleware.GenerateToken "k" ⟨[], true⟩ 1 100 100 "sess-1").2 =
      (200, (AuthMiddleware.GenerateToken "k" ⟨[], true⟩ 1 100 100 "sess-1").2) ∧
    AuthMiddleware.ProtectRoute "k"
        (AuthHandler.Logout "POST" (some 1)
          (AuthMiddleware.GenerateToken "k" ⟨[], true⟩ 1 100 100 "sess-1").2).2
        200
        ⟨"Bearer " ++ encodeJwt (signToken "k" ⟨1, "sess-1", 86500⟩), none⟩ =
      GateResult.next 1 := by
  refine ⟨by decide, by decide, by decide⟩
